import Mathlib

/-
Verification of the copilot-extension server core
(src/copilot-extension/src/handler.ts, src/copilot-extension/src/verify.ts,
src/copilot-extension/src/types.ts).

The TypeScript code is shallowly embedded below: the stream collector,
the agentic loop, the request handler and the signature verifier become
pure Lean functions over explicit state, with network and crypto effects
supplied as oracle arguments, and with JavaScript exceptions modelled by
Except values.
-/

namespace Copilot

-- ── Data model (types.ts) ────────────────────────────────────────────────────

/-- Role of a chat message, mirroring the role union in types.ts. -/
inductive Role where
  | system
  | user
  | assistant
  | tool
deriving DecidableEq, Repr

/-- The function part of a ToolCall in types.ts: name plus the
JSON-encoded argument string. -/
structure ToolFunction where
  name : String
  arguments : String
deriving DecidableEq, Repr

/-- A single tool call requested by the model (interface ToolCall in
types.ts). The constant type field is kept as written in the source. -/
structure ToolCall where
  id : String
  type_ : String
  function : ToolFunction
deriving DecidableEq, Repr

/-- OpenAI-compatible chat message (interface ChatMessage in types.ts). -/
structure ChatMessage where
  role : Role
  content : Option String
  tool_calls : Option (List ToolCall) := none
  tool_call_id : Option String := none
  name : Option String := none
deriving DecidableEq, Repr

/-- Parsed agent request body (interface CopilotPayload in types.ts). -/
structure CopilotPayload where
  messages : List ChatMessage
  copilot_thread_id : Option String := none
deriving DecidableEq, Repr

-- ── SSE frames written to the client response ────────────────────────────────

/-- A frame written to the client response stream: sseAck, sseText or
sseDone from handler.ts. -/
inductive SseFrame where
  | ack
  | text (s : String)
  | done
deriving DecidableEq, Repr

/-- The literal terminator frame produced by sseDone in handler.ts;
SseFrame.done denotes exactly this wire string. -/
def sseDone : String := "data: [DONE]\n\n"

-- ── Upstream stream events (the duck-typed chunk shape in collectStream) ─────

/-- The nested function fragment of one tool-call delta
(chunk.choices[0].delta.tool_calls[i].function). -/
structure FunctionDelta where
  name : Option String := none
  arguments : Option String := none
deriving DecidableEq, Repr

/-- One tool-call fragment of an upstream event, keyed by index. -/
structure ToolCallDelta where
  index : Nat
  id : Option String := none
  function : Option FunctionDelta := none
deriving DecidableEq, Repr

/-- The delta object of an upstream choice. -/
structure Delta where
  content : Option String := none
  tool_calls : Option (List ToolCallDelta) := none
deriving DecidableEq, Repr

/-- One element of the choices array of an upstream event. -/
structure Choice where
  delta : Option Delta := none
  finish_reason : Option String := none
deriving DecidableEq, Repr

/-- A parsed upstream SSE event (the chunk type inside collectStream). -/
structure StreamEvent where
  choices : Option (List Choice) := none
deriving DecidableEq, Repr

/-- One data line of the upstream SSE stream, after line reassembly:
either a line that does not start with the data prefix, the [DONE]
marker, a data line whose JSON parse fails, or a parsed event. -/
inductive SSEItem where
  | nonData
  | doneMarker
  | malformed
  | event (e : StreamEvent)
deriving DecidableEq, Repr

/-- JavaScript truthiness of an optional string: undefined and the empty
string are falsy, every other string is truthy. -/
def jsTruthy : Option String → Bool
  | none => false
  | some s => s != ""

-- ── Stream collector (collectStream in handler.ts) ───────────────────────────

/-- Name fragment of a tool-call delta, as read by tc.function?.name. -/
def deltaName (tc : ToolCallDelta) : Option String :=
  tc.function.bind FunctionDelta.name

/-- Arguments fragment of a tool-call delta, as read by
tc.function?.arguments. -/
def deltaArgs (tc : ToolCallDelta) : Option String :=
  tc.function.bind FunctionDelta.arguments

/-- Replace the value stored at one index of the association list that
models the JS Map, leaving every other entry unchanged. -/
def updateIdx (m : List (Nat × ToolCall)) (i : Nat) (f : ToolCall → ToolCall) :
    List (Nat × ToolCall) :=
  m.map (fun p => if p.1 = i then (p.1, f p.2) else p)

/-- Processing of one tool-call fragment, exactly as in collectStream:
on first sight of an index a fresh accumulator is inserted seeded with
the id and name fragments (and empty arguments), then the truthy fields
of the fragment are appended onto the stored accumulator. The JS Map is
modelled as an association list in insertion order. -/
def processToolCallDelta (m : List (Nat × ToolCall)) (tc : ToolCallDelta) :
    List (Nat × ToolCall) :=
  let m1 :=
    if (m.lookup tc.index).isSome then m
    else m ++ [(tc.index,
      { id := tc.id.getD ""
        type_ := "function"
        function := { name := (deltaName tc).getD "", arguments := "" } })]
  updateIdx m1 tc.index (fun ex =>
    let ex1 :=
      if jsTruthy tc.id then
        { ex with id := ex.id ++ tc.id.getD "" }
      else ex
    let ex2 :=
      if jsTruthy (deltaName tc) then
        { ex1 with function :=
            { ex1.function with name := ex1.function.name ++ (deltaName tc).getD "" } }
      else ex1
    if jsTruthy (deltaArgs tc) then
      { ex2 with function :=
          { ex2.function with arguments := ex2.function.arguments ++ (deltaArgs tc).getD "" } }
    else ex2)

/-- Mutable state of collectStream: the index-keyed tool-call map in
insertion order, and the frames written so far to the client response. -/
structure CollectState where
  toolCallMap : List (Nat × ToolCall)
  frames : List SseFrame
deriving DecidableEq, Repr

/-- Initial collector state: empty map, nothing written. -/
def initCollectState : CollectState := { toolCallMap := [], frames := [] }

/-- The content-proxy step of collectStream: when the content delta of
the choice is truthy, write one text frame to the client. -/
def contentStep (st : CollectState) (choice : Choice) : CollectState :=
  match choice.delta.bind Delta.content with
  | some c => if c != "" then { st with frames := st.frames ++ [SseFrame.text c] } else st
  | none => st

/-- Processing of one parsed upstream event: take choices[0] if any;
write a text frame when the content delta is truthy; fold the tool-call
fragments (if the tool_calls field is present) into the map. -/
def processEvent (st : CollectState) (e : StreamEvent) : CollectState :=
  match e.choices.bind List.head? with
  | none => st
  | some choice =>
    let st1 := contentStep st choice
    match choice.delta.bind Delta.tool_calls with
    | some tcs => { st1 with toolCallMap := tcs.foldl processToolCallDelta st1.toolCallMap }
    | none => st1

/-- Processing of one SSE line: non-data lines, the [DONE] marker and
malformed JSON are skipped; parsed events are processed. -/
def collectStep (st : CollectState) (item : SSEItem) : CollectState :=
  match item with
  | SSEItem.event e => processEvent st e
  | _ => st

/-- Result of collectStream (interface CollectResult in handler.ts),
extended with the frames proxied to the client while collecting. -/
structure CollectResult where
  toolCalls : List ToolCall
  hasToolCalls : Bool
  frames : List SseFrame
deriving DecidableEq, Repr

/-- The whole collector: fold the stream, then return the accumulated
tool calls as the spread of the Map values. -/
def collectStream (items : List SSEItem) : CollectResult :=
  let st := items.foldl collectStep initCollectState
  { toolCalls := st.toolCallMap.map Prod.snd
    hasToolCalls := !(st.toolCallMap.map Prod.snd).isEmpty
    frames := st.frames }

-- ── Agentic loop (agentLoop in handler.ts) ───────────────────────────────────

/-- Maximum tool-call iterations before forcing a final answer
(MAX_ITERATIONS in handler.ts). -/
def MAX_ITERATIONS : Nat := 5

/-- Outcome of one POST to the completion endpoint, supplied as an
oracle: either the fetch itself rejects (network failure), or a
response arrives with its ok flag, status, error body text and — when
ok — the SSE items of its body stream. -/
inductive ApiResponse where
  | fail (msg : String)
  | resp (ok : Bool) (status : Nat) (errorBody : String) (items : List SSEItem)
deriving Repr

/-- Result of executing a tool: one string-returning, possibly throwing
call of executeTool, supplied as an oracle over the tool name and the
parsed flat string map of arguments. -/
def ExecOracle := String → List (String × String) → Except String String

/-- Result of JSON.parse on the argument string of a tool call,
supplied as an oracle: a flat string-keyed mapping, or a thrown error. -/
def ParseOracle := String → Except String (List (String × String))

/-- The result string fed back for one tool call: the try block of the
per-tool loop in agentLoop — parse the arguments, dispatch the tool,
and on any thrown error substitute the error text. -/
def toolResult (exec : ExecOracle) (parseArgs : ParseOracle) (tc : ToolCall) : String :=
  let n := tc.function.name
  match parseArgs tc.function.arguments with
  | Except.error e => "Error executing tool " ++ n ++ ": " ++ e
  | Except.ok args =>
    match exec n args with
    | Except.error e => "Error executing tool " ++ n ++ ": " ++ e
    | Except.ok s => s

/-- The tool-role message appended for one tool call. -/
def toolMessage (exec : ExecOracle) (parseArgs : ParseOracle) (tc : ToolCall) : ChatMessage :=
  { role := Role.tool
    content := some (toolResult exec parseArgs tc)
    tool_call_id := some tc.id }

/-- The tool turn of one loop iteration: one tool-role message per
assembled tool call, in the order the model emitted them. -/
def toolTurn (exec : ExecOracle) (parseArgs : ParseOracle) (toolCalls : List ToolCall) :
    List ChatMessage :=
  toolCalls.map (toolMessage exec parseArgs)

/-- The assistant message carrying the tool-call turn. -/
def assistantToolMsg (toolCalls : List ToolCall) : ChatMessage :=
  { role := Role.assistant, content := none, tool_calls := some toolCalls }

/-- Observable outcome of the agentic loop: the frames proxied to the
client, the exception (if one escaped the loop), the number of POST
calls issued to the completion endpoint, and the final conversation. -/
structure LoopOutcome where
  frames : List SseFrame
  err : Option String
  apiCalls : Nat
  finalMessages : List ChatMessage
deriving Repr

/-- One unrolling of the for loop of agentLoop, with the remaining
iteration budget as fuel and the index of the next completion call used
to consult the api oracle. A rejected fetch or a non-ok response throws
out of the loop; a response with no tool calls breaks; otherwise the
assistant turn and the tool turn are appended and the loop repeats. -/
def agentLoopGo (api : Nat → ApiResponse) (exec : ExecOracle) (parseArgs : ParseOracle) :
    Nat → Nat → List ChatMessage → LoopOutcome
  | 0, _, msgs => { frames := [], err := none, apiCalls := 0, finalMessages := msgs }
  | Nat.succ fuel, callIdx, msgs =>
    match api callIdx with
    | ApiResponse.fail e =>
      { frames := [], err := some e, apiCalls := 1, finalMessages := msgs }
    | ApiResponse.resp ok status errorBody items =>
      if ok = false then
        { frames := []
          err := some ("Copilot API " ++ toString status ++ ": " ++ errorBody)
          apiCalls := 1
          finalMessages := msgs }
      else
        let c := collectStream items
        if c.hasToolCalls = false then
          { frames := c.frames, err := none, apiCalls := 1, finalMessages := msgs }
        else
          let msgs2 := msgs ++ [assistantToolMsg c.toolCalls] ++ toolTurn exec parseArgs c.toolCalls
          let rest := agentLoopGo api exec parseArgs fuel (callIdx + 1) msgs2
          { frames := c.frames ++ rest.frames
            err := rest.err
            apiCalls := 1 + rest.apiCalls
            finalMessages := rest.finalMessages }

/-- The agentic loop entry point: run up to MAX_ITERATIONS iterations
starting from a copy of the initial messages. -/
def agentLoop (api : Nat → ApiResponse) (exec : ExecOracle) (parseArgs : ParseOracle)
    (initialMessages : List ChatMessage) : LoopOutcome :=
  agentLoopGo api exec parseArgs MAX_ITERATIONS 0 initialMessages

-- ── Signature verifier (verify.ts) ───────────────────────────────────────────

/-- One public key of the key-distribution response (interface
PublicKey in verify.ts). -/
structure PublicKey where
  key_identifier : String
  key : String
  is_current : Bool
deriving DecidableEq, Repr

/-- The module-level cache of verify.ts: the cached key list and the
expiry timestamp in milliseconds. -/
structure KeyCache where
  cachedKeys : List PublicKey
  cacheExpiry : Nat
deriving DecidableEq, Repr

/-- Outcome of one GET to the key-distribution endpoint, supplied as an
oracle: the fetch or the body JSON parse throws, or a response arrives
with its ok flag, status and parsed key list. -/
inductive KeyFetchResult where
  | netError (msg : String)
  | httpResp (ok : Bool) (status : Nat) (keys : List PublicKey)
deriving Repr

/-- Cache TTL used by fetchPublicKeys: one hour in milliseconds. -/
def CACHE_TTL_MS : Nat := 60 * 60 * 1000

/-- Result of one fetchPublicKeys call: the returned key list or the
thrown error, the cache state afterwards, and how many requests were
issued to the key-distribution endpoint by this call. -/
structure FetchOutcome where
  result : Except String (List PublicKey)
  cache : KeyCache
  requests : Nat
deriving Repr

/-- Shallow embedding of fetchPublicKeys of verify.ts: serve from the
cache when the current time is before expiry and the cached list is
non-empty, otherwise issue one request; a non-ok response throws, a
successful one replaces the cache and sets expiry one hour ahead. -/
def fetchPublicKeys (st : KeyCache) (now : Nat) (net : KeyFetchResult) : FetchOutcome :=
  if now < st.cacheExpiry ∧ 0 < st.cachedKeys.length then
    { result := Except.ok st.cachedKeys, cache := st, requests := 0 }
  else
    match net with
    | KeyFetchResult.netError m =>
      { result := Except.error m, cache := st, requests := 1 }
    | KeyFetchResult.httpResp ok status keys =>
      if ok = false then
        { result := Except.error ("Failed to fetch GitHub public keys: " ++ toString status)
          cache := st
          requests := 1 }
      else
        { result := Except.ok keys
          cache := { cachedKeys := keys, cacheExpiry := now + CACHE_TTL_MS }
          requests := 1 }

/-- The crypto check of verify.ts (createVerify / verifier.verify) as
an oracle over the PEM key, the raw body and the base64 signature; it
may throw. -/
def CryptoOracle := String → String → String → Except String Bool

/-- The try block of verifySignature: fetch the keys, look up the key
matching the identifier (absence is an early false return, not a
throw), then run the crypto check. -/
def verifySignatureBody (st : KeyCache) (now : Nat) (net : KeyFetchResult)
    (cryptoVerify : CryptoOracle) (rawBody keyId signature : String) :
    Except String Bool :=
  match (fetchPublicKeys st now net).result with
  | Except.error e => Except.error e
  | Except.ok keys =>
    match keys.find? (fun k => k.key_identifier == keyId) with
    | none => Except.ok false
    | some key => cryptoVerify key.key rawBody signature

/-- Observable outcome of one verifySignature call. -/
structure VerifyOutcome where
  result : Bool
  cache : KeyCache
  requests : Nat
deriving Repr

/-- Shallow embedding of verifySignature of verify.ts: the try block
above with the catch converting any thrown error into the boolean
false. -/
def verifySignature (st : KeyCache) (now : Nat) (net : KeyFetchResult)
    (cryptoVerify : CryptoOracle) (rawBody keyId signature : String) : VerifyOutcome :=
  let f := fetchPublicKeys st now net
  { result :=
      match verifySignatureBody st now net cryptoVerify rawBody keyId signature with
      | Except.ok b => b
      | Except.error _ => false
    cache := f.cache
    requests := f.requests }

-- ── Request handler (handleCopilotRequest in handler.ts) ─────────────────────

/-- The HTTP response produced by the handler: either a status response
with a JSON error (pre-stream), or an opened event stream with the
frames written and whether res.end was reached. -/
inductive HandlerResponse where
  | status (code : Nat) (error : String)
  | stream (frames : List SseFrame) (ended : Bool)
deriving DecidableEq, Repr

/-- Trace of one handler invocation: the response, how many times
verifySignature was invoked, whether JSON.parse of the body was
attempted, and whether the SSE headers were set (the stream opened). -/
structure HandlerTrace where
  response : HandlerResponse
  verifyCalls : Nat
  parseAttempted : Bool
  sseHeadersSet : Bool
deriving DecidableEq, Repr

/-- Shallow embedding of handleCopilotRequest of handler.ts. Headers
are optional strings checked for JS truthiness; the verification result
and the body parse are oracles (verifySignature is total by the catch
in verify.ts); after the stream opens, the ack frame, the loop frames,
the in-band error notice when the loop threw, and the terminator frame
are written in order, then the response is ended. -/
def handleCopilotRequest (keyId signature token : Option String)
    (verifyResult : Bool) (parsedBody : Option CopilotPayload)
    (api : Nat → ApiResponse) (exec : ExecOracle) (parseArgs : ParseOracle) :
    HandlerTrace :=
  if !(jsTruthy keyId) || !(jsTruthy signature) then
    { response := HandlerResponse.status 401 "Missing signature headers"
      verifyCalls := 0, parseAttempted := false, sseHeadersSet := false }
  else if !(jsTruthy token) then
    { response := HandlerResponse.status 401 "Missing X-GitHub-Token header"
      verifyCalls := 0, parseAttempted := false, sseHeadersSet := false }
  else if verifyResult = false then
    { response := HandlerResponse.status 401 "Invalid request signature"
      verifyCalls := 1, parseAttempted := false, sseHeadersSet := false }
  else
    match parsedBody with
    | none =>
      { response := HandlerResponse.status 400 "Invalid JSON payload"
        verifyCalls := 1, parseAttempted := true, sseHeadersSet := false }
    | some payload =>
      let outcome := agentLoop api exec parseArgs payload.messages
      let errFrames :=
        match outcome.err with
        | some m => [SseFrame.text ("\n\n⚠️  Extension error: " ++ m)]
        | none => []
      { response := HandlerResponse.stream
          ([SseFrame.ack] ++ outcome.frames ++ errFrames ++ [SseFrame.done]) true
        verifyCalls := 1, parseAttempted := true, sseHeadersSet := true }

/-- Status code of a handler response, when it is a status response. -/
def statusCodeOf : HandlerResponse → Option Nat
  | HandlerResponse.status c _ => some c
  | HandlerResponse.stream _ _ => none

/-- Frames written on a handler response: none for a status response. -/
def framesOf : HandlerResponse → List SseFrame
  | HandlerResponse.status _ _ => []
  | HandlerResponse.stream fs _ => fs

-- ── Derived observers and concrete inputs used by the statements ─────────────

/-- Content delta of an upstream event as the collector reads it:
chunk.choices[0].delta.content, when every level is present. -/
def eventContent (e : StreamEvent) : Option String :=
  ((e.choices.bind List.head?).bind Choice.delta).bind Delta.content

/-- Indices of the tool-call fragments an event contributes, in
arrival order, mirroring exactly the path the collector walks. -/
def deltaIndices : SSEItem → List Nat
  | SSEItem.event e =>
    (match e.choices.bind List.head? with
     | none => []
     | some choice =>
       match choice.delta.bind Delta.tool_calls with
       | some tcs => tcs.map ToolCallDelta.index
       | none => [])
  | _ => []

/-- All tool-call fragment indices of a stream, in arrival order. -/
def fragmentIndices (items : List SSEItem) : List Nat :=
  (items.map deltaIndices).flatten

/-- Append an index to a key list unless it is already present: one
step of first-appearance ordering. -/
def insertNew (ks : List Nat) (i : Nat) : List Nat :=
  if i ∈ ks then ks else ks ++ [i]

/-- The distinct indices of a list in order of first appearance. -/
def firstAppearanceOrder (l : List Nat) : List Nat :=
  l.foldl insertNew []

/-- Insertion of one map entry into a key-ascending list. -/
def insertByIdx (p : Nat × ToolCall) : List (Nat × ToolCall) → List (Nat × ToolCall)
  | [] => [p]
  | q :: qs => if p.1 ≤ q.1 then p :: q :: qs else q :: insertByIdx p qs

/-- Insertion sort of map entries by ascending index key. -/
def sortByIdx : List (Nat × ToolCall) → List (Nat × ToolCall)
  | [] => []
  | p :: ps => insertByIdx p (sortByIdx ps)

/-- Modelled from the spec: the return order the spec asserts for
collectStream — the accumulated ToolCallRequests listed by ascending
fragment index (spec 4.3: order = ascending index). The source instead
spreads the Map values in insertion order; this definition exists to be
compared against the source embedding. -/
def toolCallsAscendingSpec (items : List SSEItem) : List ToolCall :=
  (sortByIdx (items.foldl collectStep initCollectState).toolCallMap).map Prod.snd

/-- One tool-call fragment with every textual field present. -/
def mkDelta (i : Nat) (idf nmf agf : Option String) : ToolCallDelta :=
  { index := i, id := idf, function := some { name := nmf, arguments := agf } }

/-- An upstream event carrying exactly the given tool-call fragments. -/
def toolDeltaEvent (tcs : List ToolCallDelta) : SSEItem :=
  SSEItem.event { choices := some [{ delta := some { content := none, tool_calls := some tcs } }] }

/-- A stream in which the id, name and arguments of the tool call at
index 0 each arrive split over two fragments, interleaved with the
fragments of a second tool call at index 1. -/
def bugItems : List SSEItem :=
  [ toolDeltaEvent [mkDelta 0 (some "ca") (some "fo") (some "ar")],
    toolDeltaEvent [mkDelta 1 (some "id") (some "ba") (some "x")],
    toolDeltaEvent [mkDelta 0 (some "ll_1") (some "o") (some "gs")],
    toolDeltaEvent [mkDelta 1 (some "2") (some "r") (some "y")] ]

/-- A stream in which index 1 is first seen before index 0. -/
def outOfOrderItems : List SSEItem :=
  [ toolDeltaEvent [mkDelta 1 none none (some "B")],
    toolDeltaEvent [mkDelta 0 none none (some "A")] ]

/-- An api oracle whose every response is ok and carries no frames and
no tool calls. -/
def apiNoTools : Nat → ApiResponse := fun _ => ApiResponse.resp true 200 "" []

/-- An api oracle whose every response is a 500 error. -/
def apiFail500 : Nat → ApiResponse := fun _ => ApiResponse.resp false 500 "oops" []

/-- Whether an api oracle outcome is an ok response. -/
def apiOk : ApiResponse → Bool
  | ApiResponse.resp true _ _ _ => true
  | _ => false

/-- Whether an api oracle outcome is an ok response from which the
collector assembles no tool calls. -/
def apiOkNoTools : ApiResponse → Bool
  | ApiResponse.resp true _ _ items => !(collectStream items).hasToolCalls
  | _ => false

/-- A tool-execution oracle that always succeeds. -/
def execStub : ExecOracle := fun _ _ => Except.ok "ok"

/-- A tool-execution oracle that always throws. -/
def failExec : ExecOracle := fun _ _ => Except.error "boom"

/-- An argument-parse oracle that always succeeds with an empty map. -/
def parseStub : ParseOracle := fun _ => Except.ok []

/-- A crypto oracle that always accepts. -/
def trivialCrypto : CryptoOracle := fun _ _ _ => Except.ok true

/-- A concrete assembled tool call. -/
def demoToolCall : ToolCall :=
  { id := "call_1", type_ := "function", function := { name := "f", arguments := "a" } }

/-- A concrete parsed payload with no messages. -/
def emptyPayload : CopilotPayload := { messages := [] }

/-- A concrete event carrying a non-empty content delta. -/
def demoContentEvent : StreamEvent :=
  { choices := some [{ delta := some { content := some "hi", tool_calls := none } }] }

/-- A concrete event carrying an empty-string content delta. -/
def demoEmptyContentEvent : StreamEvent :=
  { choices := some [{ delta := some { content := some "", tool_calls := none } }] }

-- ── Collector lemmas ─────────────────────────────────────────────────────────

/-- Updating the value stored at one index leaves the key list of the
map unchanged. -/
theorem updateIdx_keys (i : Nat) (f : ToolCall → ToolCall) :
    ∀ m : List (Nat × ToolCall), (updateIdx m i f).map Prod.fst = m.map Prod.fst := by
  intro m
  induction m with
  | nil => rfl
  | cons p ps ih =>
    simp only [updateIdx, List.map_cons] at ih ⊢
    rw [ih]
    split <;> rfl

/-- Lookup in the association-list model of the JS Map succeeds exactly
when the key occurs in the key list. -/
theorem lookup_isSome_iff (i : Nat) :
    ∀ m : List (Nat × ToolCall), (m.lookup i).isSome = true ↔ i ∈ m.map Prod.fst := by
  intro m
  induction m with
  | nil => simp [List.lookup]
  | cons p ps ih =>
    cases p with
    | mk k v =>
      by_cases h : i = k
      · subst h; simp [List.lookup]
      · have hbeq : (i == k) = false := by simp [h]
        simp [List.lookup, hbeq, h, ih]

/-- Processing one fragment either leaves the key list unchanged (index
already present) or appends the new index at the end. -/
theorem processToolCallDelta_keys (m : List (Nat × ToolCall)) (tc : ToolCallDelta) :
    (processToolCallDelta m tc).map Prod.fst = insertNew (m.map Prod.fst) tc.index := by
  by_cases h : (m.lookup tc.index).isSome = true
  · have hm : tc.index ∈ m.map Prod.fst := (lookup_isSome_iff tc.index m).mp h
    simp [processToolCallDelta, insertNew, h, hm, updateIdx_keys]
  · have hm : tc.index ∉ m.map Prod.fst := fun c => h ((lookup_isSome_iff tc.index m).mpr c)
    simp [processToolCallDelta, insertNew, h, hm, updateIdx_keys]

/-- Folding a list of fragments evolves the key list by first-appearance
insertion of the fragment indices. -/
theorem foldl_deltas_keys :
    ∀ (tcs : List ToolCallDelta) (m : List (Nat × ToolCall)),
      (tcs.foldl processToolCallDelta m).map Prod.fst
        = (tcs.map ToolCallDelta.index).foldl insertNew (m.map Prod.fst) := by
  intro tcs
  induction tcs with
  | nil => intro m; rfl
  | cons tc ts ih =>
    intro m
    simp only [List.foldl_cons, List.map_cons]
    rw [ih, processToolCallDelta_keys]

/-- The content-proxy step never touches the tool-call map. -/
theorem contentStep_toolCallMap (st : CollectState) (choice : Choice) :
    (contentStep st choice).toolCallMap = st.toolCallMap := by
  unfold contentStep
  cases choice.delta.bind Delta.content with
  | none => rfl
  | some c =>
    dsimp only
    split <;> rfl

/-- One collector step evolves the key list by first-appearance
insertion of the indices the item contributes. -/
theorem collectStep_keys (st : CollectState) (item : SSEItem) :
    (collectStep st item).toolCallMap.map Prod.fst
      = (deltaIndices item).foldl insertNew (st.toolCallMap.map Prod.fst) := by
  cases item with
  | nonData => rfl
  | doneMarker => rfl
  | malformed => rfl
  | event e =>
    simp only [collectStep, processEvent, deltaIndices]
    cases hc : e.choices.bind List.head? with
    | none => rfl
    | some choice =>
      cases hd : choice.delta.bind Delta.tool_calls with
      | none => simp [hd, contentStep_toolCallMap]
      | some tcs => simp [hd, foldl_deltas_keys, contentStep_toolCallMap]

/-- Folding a whole stream evolves the key list by first-appearance
insertion of all fragment indices in arrival order. -/
theorem collect_keys :
    ∀ (items : List SSEItem) (st : CollectState),
      ((items.foldl collectStep st).toolCallMap.map Prod.fst)
        = (fragmentIndices items).foldl insertNew (st.toolCallMap.map Prod.fst) := by
  intro items
  induction items with
  | nil => intro st; rfl
  | cons it its ih =>
    intro st
    simp only [List.foldl_cons, fragmentIndices, List.map_cons, List.flatten_cons,
      List.foldl_append]
    rw [ih, collectStep_keys]
    rfl

-- ── C1: tool-call fragment reassembly ────────────────────────────────────────

/-- C1, evaluated at a failing input: on a stream whose tool-call id,
name and arguments each arrive split over two fragments per index,
interleaved across indices 0 and 1, the collector seeds the fresh
accumulator with the first fragments of id and name and then appends
them again, so the assembled id and name double their first fragment
("cacall_1" instead of "ca" ++ "ll_1" = "call_1"), while the arguments,
seeded empty, concatenate exactly as the claim states. -/
theorem collectStream_first_fragment_doubled :
    (collectStream bugItems).toolCalls.map
        (fun tc => (tc.id, tc.function.name, tc.function.arguments))
      = [("cacall_1", "fofoo", "args"), ("idid2", "babar", "xy")]
    ∧ "cacall_1" ≠ "ca" ++ "ll_1"
    ∧ "fofoo" ≠ "fo" ++ "o"
    ∧ "args" = "ar" ++ "gs" := by decide

-- ── C2: return order of the assembled tool calls ─────────────────────────────

/-- C2 counterexample: on a stream whose higher index is first seen
before the lower one, collectStream returns the Map values in insertion
order, not by ascending fragment index — the call first seen at index 1
(arguments "B") precedes the call at index 0 (arguments "A"). -/
theorem collectStream_order_counterexample :
    ((outOfOrderItems.foldl collectStep initCollectState).toolCallMap.map Prod.fst = [1, 0])
    ∧ (collectStream outOfOrderItems).toolCalls.map (fun tc => tc.function.arguments) = ["B", "A"]
    ∧ (collectStream outOfOrderItems).toolCalls ≠ toolCallsAscendingSpec outOfOrderItems
    ∧ (toolCallsAscendingSpec outOfOrderItems).map (fun tc => tc.function.arguments) = ["A", "B"] := by
  decide

/-- C2 as amended: when the underlying stream ends, collectStream
returns one accumulated ToolCallRequest per distinct fragment index, in
order of first appearance of that index in the stream (JS Map insertion
order), not by ascending index. -/
theorem collectStream_insertion_order (items : List SSEItem) :
    ((items.foldl collectStep initCollectState).toolCallMap.map Prod.fst)
      = firstAppearanceOrder (fragmentIndices items)
    ∧ (collectStream items).toolCalls
      = ((items.foldl collectStep initCollectState).toolCallMap.map Prod.snd) := by
  constructor
  · rw [collect_keys]
    rfl
  · rfl

-- ── C10: content deltas forwarded only when non-empty ───────────────────────

/-- Frames written by the content-proxy step: one text frame when the
content delta is a non-empty string, nothing otherwise. -/
theorem contentStep_frames (st : CollectState) (choice : Choice) :
    (contentStep st choice).frames
      = st.frames ++ (match choice.delta.bind Delta.content with
          | some c => if c != "" then [SseFrame.text c] else []
          | none => []) := by
  unfold contentStep
  cases choice.delta.bind Delta.content with
  | none => simp
  | some c =>
    dsimp only
    split <;> simp

/-- Frames after processing one event are the frames of the content
step: the tool-call branch never writes. -/
theorem processEvent_frames (st : CollectState) (e : StreamEvent) :
    (processEvent st e).frames
      = match e.choices.bind List.head? with
        | none => st.frames
        | some choice => (contentStep st choice).frames := by
  unfold processEvent
  cases e.choices.bind List.head? with
  | none => rfl
  | some choice =>
    dsimp only
    cases choice.delta.bind Delta.tool_calls with
    | none => rfl
    | some tcs => rfl

/-- C10: collectStream writes a text frame to the client only for an
event whose content delta is a non-empty string; an event whose content
is the empty string, absent, or whose choices array yields no first
choice produces no write at all. -/
theorem collect_content_write_filter (st : CollectState) (e : StreamEvent) :
    (∀ c : String, eventContent e = some c → c ≠ "" →
      (collectStep st (SSEItem.event e)).frames = st.frames ++ [SseFrame.text c])
    ∧ ((eventContent e = none ∨ eventContent e = some "") →
      (collectStep st (SSEItem.event e)).frames = st.frames) := by
  have hstep : (collectStep st (SSEItem.event e)).frames = (processEvent st e).frames := rfl
  constructor
  · intro c hc hne
    rw [hstep, processEvent_frames]
    cases hh : e.choices.bind List.head? with
    | none =>
      exfalso
      unfold eventContent at hc
      rw [hh] at hc
      simp at hc
    | some choice =>
      have hcc : choice.delta.bind Delta.content = some c := by
        unfold eventContent at hc
        rw [hh] at hc
        simpa using hc
      dsimp only
      rw [contentStep_frames, hcc]
      simp [hne]
  · intro h
    rw [hstep, processEvent_frames]
    cases hh : e.choices.bind List.head? with
    | none => rfl
    | some choice =>
      dsimp only
      rw [contentStep_frames]
      rcases h with h | h
      · have hcc : choice.delta.bind Delta.content = none := by
          unfold eventContent at h
          rw [hh] at h
          simpa using h
        rw [hcc]
        simp
      · have hcc : choice.delta.bind Delta.content = some "" := by
          unfold eventContent at h
          rw [hh] at h
          simpa using h
        rw [hcc]
        simp

/-- C10 witness: a concrete non-empty content delta is forwarded as one
text frame, and a concrete empty-string content delta writes nothing. -/
theorem collect_content_write_filter_witness :
    (collectStep initCollectState (SSEItem.event demoContentEvent)).frames
      = initCollectState.frames ++ [SseFrame.text "hi"]
    ∧ (collectStep initCollectState (SSEItem.event demoEmptyContentEvent)).frames
      = initCollectState.frames :=
  ⟨(collect_content_write_filter initCollectState demoContentEvent).1 "hi" rfl (by decide),
   (collect_content_write_filter initCollectState demoEmptyContentEvent).2 (Or.inr rfl)⟩

-- ── C3: iteration bound of the agentic loop ──────────────────────────────────

/-- The loop issues at most as many completion calls as it has fuel. -/
theorem agentLoopGo_calls_le (api : Nat → ApiResponse) (exec : ExecOracle)
    (parseArgs : ParseOracle) :
    ∀ (fuel callIdx : Nat) (msgs : List ChatMessage),
      (agentLoopGo api exec parseArgs fuel callIdx msgs).apiCalls ≤ fuel := by
  intro fuel
  induction fuel with
  | zero => intro idx msgs; exact Nat.le_refl 0
  | succ f ih =>
    intro idx msgs
    simp only [agentLoopGo]
    cases hapi : api idx with
    | fail e => simp
    | resp ok status body items =>
      cases ok with
      | false => simp
      | true =>
        by_cases hc : (collectStream items).hasToolCalls = false
        · simp [hc]
        · simp only [hc]
          simp [hc]
          have := ih (idx + 1)
            (msgs ++ assistantToolMsg (collectStream items).toolCalls
              :: toolTurn exec parseArgs (collectStream items).toolCalls)
          omega

/-- If the completion call at offset k from the current one is an ok
response with no tool calls, the loop makes at most k + 1 more calls. -/
theorem agentLoopGo_stops (api : Nat → ApiResponse) (exec : ExecOracle)
    (parseArgs : ParseOracle) :
    ∀ (fuel k callIdx : Nat) (msgs : List ChatMessage),
      apiOkNoTools (api (callIdx + k)) = true →
      (agentLoopGo api exec parseArgs fuel callIdx msgs).apiCalls ≤ k + 1 := by
  intro fuel
  induction fuel with
  | zero =>
    intro k idx msgs h
    exact Nat.le_trans (Nat.zero_le _) (Nat.le_refl _)
  | succ f ih =>
    intro k idx msgs h
    simp only [agentLoopGo]
    cases hapi : api idx with
    | fail e => simp
    | resp ok status body items =>
      cases ok with
      | false => simp
      | true =>
        by_cases hc : (collectStream items).hasToolCalls = false
        · simp [hc]
        · simp [hc]
          cases k with
          | zero =>
            exfalso
            rw [Nat.add_zero, hapi] at h
            simp only [apiOkNoTools, Bool.not_eq_true'] at h
            exact hc h
          | succ j =>
            have h2 : apiOkNoTools (api (idx + 1 + j)) = true := by
              have hadd : idx + 1 + j = idx + (j + 1) := by omega
              rw [hadd]
              exact h
            have := ih j (idx + 1)
              (msgs ++ assistantToolMsg (collectStream items).toolCalls
                :: toolTurn exec parseArgs (collectStream items).toolCalls) h2
            omega

/-- C3: for every initial conversation and every sequence of upstream
responses, the agentic loop issues at most MAX_ITERATIONS = 5 calls to
the completion endpoint; and whenever the call at index n is an ok
response assembling zero tool calls, the loop stops with at most n + 1
calls made in total. -/
theorem agentLoop_iteration_bound (api : Nat → ApiResponse) (exec : ExecOracle)
    (parseArgs : ParseOracle) (msgs : List ChatMessage) :
    (agentLoop api exec parseArgs msgs).apiCalls ≤ MAX_ITERATIONS
    ∧ (∀ n : Nat, apiOkNoTools (api n) = true →
        (agentLoop api exec parseArgs msgs).apiCalls ≤ n + 1) := by
  constructor
  · exact agentLoopGo_calls_le api exec parseArgs MAX_ITERATIONS 0 msgs
  · intro n h
    have h0 : apiOkNoTools (api (0 + n)) = true := by rw [Nat.zero_add]; exact h
    exact agentLoopGo_stops api exec parseArgs MAX_ITERATIONS n 0 msgs h0

/-- C3 witness: with an oracle whose first response is ok and carries
no tool calls, the loop stops after one completion call. -/
theorem agentLoop_iteration_bound_witness :
    (agentLoop apiNoTools execStub parseStub []).apiCalls ≤ 0 + 1 :=
  (agentLoop_iteration_bound apiNoTools execStub parseStub []).2 0 (by decide)

-- ── C9: tool-turn messages and failure isolation ─────────────────────────────

/-- When every completion call is an ok response, no exception escapes
the loop, whatever the tool-execution and argument-parse oracles do. -/
theorem agentLoopGo_ok_err_none (api : Nat → ApiResponse) (exec : ExecOracle)
    (parseArgs : ParseOracle) (hok : ∀ n, apiOk (api n) = true) :
    ∀ (fuel callIdx : Nat) (msgs : List ChatMessage),
      (agentLoopGo api exec parseArgs fuel callIdx msgs).err = none := by
  intro fuel
  induction fuel with
  | zero => intro idx msgs; rfl
  | succ f ih =>
    intro idx msgs
    simp only [agentLoopGo]
    have h := hok idx
    cases hapi : api idx with
    | fail e =>
      rw [hapi] at h
      simp [apiOk] at h
    | resp ok status body items =>
      rw [hapi] at h
      cases ok with
      | false => simp [apiOk] at h
      | true =>
        by_cases hc : (collectStream items).hasToolCalls = false
        · simp [hc]
        · simp [hc]
          exact ih (idx + 1) _

/-- C9: the tool turn appends exactly one tool-role message per
assembled tool call, in order, each carrying the identifier of the call
it answers; a parse or dispatch failure for one call yields a textual
error result for that call without affecting the others; and when the
completion endpoint itself never fails, the loop never ends in an
exception, whatever the tools do. -/
theorem tool_turn_isolation (exec : ExecOracle) (parseArgs : ParseOracle)
    (toolCalls : List ToolCall) :
    (toolTurn exec parseArgs toolCalls).length = toolCalls.length
    ∧ (∀ i : Nat, (toolTurn exec parseArgs toolCalls).get? i
        = (toolCalls.get? i).map (fun tc =>
            { role := Role.tool
              content := some (toolResult exec parseArgs tc)
              tool_call_id := some tc.id : ChatMessage }))
    ∧ (∀ (tc : ToolCall) (e : String),
        parseArgs tc.function.arguments = Except.error e →
        toolResult exec parseArgs tc
          = "Error executing tool " ++ tc.function.name ++ ": " ++ e)
    ∧ (∀ (tc : ToolCall) (args : List (String × String)) (e : String),
        parseArgs tc.function.arguments = Except.ok args →
        exec tc.function.name args = Except.error e →
        toolResult exec parseArgs tc
          = "Error executing tool " ++ tc.function.name ++ ": " ++ e)
    ∧ (∀ api : Nat → ApiResponse, (∀ n, apiOk (api n) = true) →
        ∀ msgs : List ChatMessage, (agentLoop api exec parseArgs msgs).err = none) := by
  refine ⟨List.length_map _ _, ?_, ?_, ?_, ?_⟩
  · intro i
    show (toolCalls.map (toolMessage exec parseArgs)).get? i = _
    rw [List.get?_map]
    cases toolCalls.get? i with
    | none => rfl
    | some tc => rfl
  · intro tc e he
    simp [toolResult, he]
  · intro tc args e hp he
    simp [toolResult, hp, he]
  · intro api hok msgs
    exact agentLoopGo_ok_err_none api exec parseArgs hok MAX_ITERATIONS 0 msgs

/-- C9 witness: a concrete throwing tool produces the textual error
result, and with an always-ok completion oracle the loop still ends
without an exception. -/
theorem tool_turn_isolation_witness :
    toolResult failExec parseStub demoToolCall
      = "Error executing tool " ++ demoToolCall.function.name ++ ": " ++ "boom"
    ∧ (agentLoop apiNoTools failExec parseStub []).err = none :=
  ⟨(tool_turn_isolation failExec parseStub [demoToolCall]).2.2.2.1 demoToolCall [] "boom" rfl rfl,
   (tool_turn_isolation failExec parseStub [demoToolCall]).2.2.2.2 apiNoTools (fun _ => rfl) []⟩

-- ── C4: the verifier never throws and fails closed ───────────────────────────

/-- C4: verifySignature surfaces every thrown error of its try block as
the boolean false, and an unknown key identifier yields false without
entering the crypto check. -/
theorem verifySignature_fails_closed (st : KeyCache) (now : Nat) (net : KeyFetchResult)
    (cv : CryptoOracle) (rawBody keyId signature : String) :
    (∀ e : String,
      verifySignatureBody st now net cv rawBody keyId signature = Except.error e →
      (verifySignature st now net cv rawBody keyId signature).result = false)
    ∧ (∀ keys : List PublicKey,
        (fetchPublicKeys st now net).result = Except.ok keys →
        keys.find? (fun k => k.key_identifier == keyId) = none →
        (verifySignature st now net cv rawBody keyId signature).result = false) := by
  constructor
  · intro e he
    simp [verifySignature, he]
  · intro keys hk hf
    simp [verifySignature, verifySignatureBody, hk, hf]

/-- C4 witness: a concrete network failure during the key fetch and a
concrete unknown key identifier both surface as false. -/
theorem verifySignature_fails_closed_witness :
    (verifySignature ⟨[], 0⟩ 0 (KeyFetchResult.netError "down") trivialCrypto
        "body" "kid" "sig").result = false
    ∧ (verifySignature ⟨[], 0⟩ 0
        (KeyFetchResult.httpResp true 200 [⟨"other", "pem", true⟩]) trivialCrypto
        "body" "kid" "sig").result = false :=
  ⟨(verifySignature_fails_closed ⟨[], 0⟩ 0 (KeyFetchResult.netError "down") trivialCrypto
      "body" "kid" "sig").1 "down" rfl,
   (verifySignature_fails_closed ⟨[], 0⟩ 0
      (KeyFetchResult.httpResp true 200 [⟨"other", "pem", true⟩]) trivialCrypto
      "body" "kid" "sig").2 [⟨"other", "pem", true⟩] rfl rfl⟩

-- ── C5: key cache TTL ────────────────────────────────────────────────────────

/-- C5 counterexample: when the key-distribution endpoint returns an
empty key list, the cache check (which requires a non-empty cached
list) fails on the next verification even inside the TTL window, so two
calls within the window issue two requests — the claim admits any
returned key list, and fails for the empty one. -/
theorem key_cache_empty_list_refetch :
    (1 < (verifySignature ⟨[], 0⟩ 0 (KeyFetchResult.httpResp true 200 []) trivialCrypto
        "b" "k" "s").cache.cacheExpiry)
    ∧ (verifySignature ⟨[], 0⟩ 0 (KeyFetchResult.httpResp true 200 []) trivialCrypto
        "b" "k" "s").requests = 1
    ∧ (verifySignature
        (verifySignature ⟨[], 0⟩ 0 (KeyFetchResult.httpResp true 200 []) trivialCrypto
          "b" "k" "s").cache
        1 (KeyFetchResult.httpResp true 200 []) trivialCrypto "b" "k" "s").requests = 1 := by
  decide

/-- C5 as amended: when the first verification call fetches and the
endpoint returns a NON-EMPTY key list, a second call before the expiry
set by that fetch issues no request (so at most one across the two);
and any verification call made at or after the cache expiry issues
exactly one request. -/
theorem key_cache_ttl_amended (st : KeyCache) (now1 now2 status : Nat)
    (keys : List PublicKey) (net2 : KeyFetchResult) (cv1 cv2 : CryptoOracle)
    (b1 k1 s1 b2 k2 s2 : String)
    (hmiss : ¬(now1 < st.cacheExpiry ∧ 0 < st.cachedKeys.length))
    (hne : keys ≠ []) :
    (verifySignature st now1 (KeyFetchResult.httpResp true status keys) cv1 b1 k1 s1).requests = 1
    ∧ (now2 < now1 + CACHE_TTL_MS →
        (verifySignature
          (verifySignature st now1 (KeyFetchResult.httpResp true status keys) cv1 b1 k1 s1).cache
          now2 net2 cv2 b2 k2 s2).requests = 0)
    ∧ (∀ (st2 : KeyCache) (now3 : Nat) (net3 : KeyFetchResult) (cv3 : CryptoOracle)
        (b3 k3 s3 : String),
        st2.cacheExpiry ≤ now3 →
        (verifySignature st2 now3 net3 cv3 b3 k3 s3).requests = 1) := by
  have hcache :
      (verifySignature st now1 (KeyFetchResult.httpResp true status keys) cv1 b1 k1 s1).cache
        = ⟨keys, now1 + CACHE_TTL_MS⟩ := by
    simp [verifySignature, fetchPublicKeys, hmiss]
  refine ⟨?_, ?_, ?_⟩
  · simp [verifySignature, fetchPublicKeys, hmiss]
  · intro h2
    rw [hcache]
    have hpos : 0 < keys.length := List.length_pos.mpr hne
    simp [verifySignature, fetchPublicKeys, h2, hpos]
  · intro st2 now3 net3 cv3 b3 k3 s3 hle
    have hlt : ¬(now3 < st2.cacheExpiry) := Nat.not_lt.mpr hle
    cases net3 with
    | netError m => simp [verifySignature, fetchPublicKeys, hlt]
    | httpResp ok status3 keys3 =>
      cases ok with
      | false => simp [verifySignature, fetchPublicKeys, hlt]
      | true => simp [verifySignature, fetchPublicKeys, hlt]

/-- C5 amended witness: a concrete first fetch returning one key makes
a concrete second call five milliseconds later serve from the cache
with zero requests. -/
theorem key_cache_ttl_amended_witness :
    (verifySignature
      (verifySignature ⟨[], 0⟩ 0 (KeyFetchResult.httpResp true 200 [⟨"kid", "pem", true⟩])
        trivialCrypto "b" "k" "s").cache
      5 (KeyFetchResult.netError "down") trivialCrypto "b" "k" "s").requests = 0 :=
  (key_cache_ttl_amended ⟨[], 0⟩ 0 5 200 [⟨"kid", "pem", true⟩] (KeyFetchResult.netError "down")
    trivialCrypto trivialCrypto "b" "k" "s" "b" "k" "s" (by decide)
    (by decide)).2.1 (by decide)

-- ── C6: pre-stream rejections ────────────────────────────────────────────────

/-- C6: a request missing any of the three required headers is rejected
with 401 before signature verification and before the stream opens; a
request with all headers present whose signature verification returned
false is rejected with 401 before the body is parsed and before the
stream opens. -/
theorem handler_rejects_unauthorized (keyId signature token : Option String)
    (verifyResult : Bool) (parsedBody : Option CopilotPayload)
    (api : Nat → ApiResponse) (exec : ExecOracle) (parseArgs : ParseOracle) :
    ((keyId = none ∨ signature = none ∨ token = none) →
      statusCodeOf (handleCopilotRequest keyId signature token verifyResult parsedBody
        api exec parseArgs).response = some 401
      ∧ (handleCopilotRequest keyId signature token verifyResult parsedBody
          api exec parseArgs).verifyCalls = 0
      ∧ (handleCopilotRequest keyId signature token verifyResult parsedBody
          api exec parseArgs).sseHeadersSet = false)
    ∧ (jsTruthy keyId = true → jsTruthy signature = true → jsTruthy token = true →
      verifyResult = false →
      statusCodeOf (handleCopilotRequest keyId signature token verifyResult parsedBody
        api exec parseArgs).response = some 401
      ∧ (handleCopilotRequest keyId signature token verifyResult parsedBody
          api exec parseArgs).parseAttempted = false
      ∧ (handleCopilotRequest keyId signature token verifyResult parsedBody
          api exec parseArgs).sseHeadersSet = false) := by
  constructor
  · intro h
    rcases h with h | h | h
    · subst h
      simp [handleCopilotRequest, jsTruthy, statusCodeOf]
    · subst h
      simp [handleCopilotRequest, jsTruthy, statusCodeOf]
    · subst h
      unfold handleCopilotRequest
      split
      · simp [statusCodeOf]
      · simp [jsTruthy, statusCodeOf]
  · intro h1 h2 h3 hv
    subst hv
    simp [handleCopilotRequest, h1, h2, h3, statusCodeOf]

/-- C6 witness: a concrete request with no key-identifier header is
rejected 401 with no verification and no stream, and a concrete request
with all headers but failing verification is rejected 401 with no body
parse and no stream. -/
theorem handler_rejects_unauthorized_witness :
    (statusCodeOf (handleCopilotRequest none (some "sig") (some "tok") true (some emptyPayload)
        apiNoTools execStub parseStub).response = some 401
      ∧ (handleCopilotRequest none (some "sig") (some "tok") true (some emptyPayload)
          apiNoTools execStub parseStub).verifyCalls = 0
      ∧ (handleCopilotRequest none (some "sig") (some "tok") true (some emptyPayload)
          apiNoTools execStub parseStub).sseHeadersSet = false)
    ∧ (statusCodeOf (handleCopilotRequest (some "kid") (some "sig") (some "tok") false
        (some emptyPayload) apiNoTools execStub parseStub).response = some 401
      ∧ (handleCopilotRequest (some "kid") (some "sig") (some "tok") false (some emptyPayload)
          apiNoTools execStub parseStub).parseAttempted = false
      ∧ (handleCopilotRequest (some "kid") (some "sig") (some "tok") false (some emptyPayload)
          apiNoTools execStub parseStub).sseHeadersSet = false) :=
  ⟨(handler_rejects_unauthorized none (some "sig") (some "tok") true (some emptyPayload)
      apiNoTools execStub parseStub).1 (Or.inl rfl),
   (handler_rejects_unauthorized (some "kid") (some "sig") (some "tok") false (some emptyPayload)
      apiNoTools execStub parseStub).2 (by decide) (by decide) (by decide) rfl⟩

-- ── C7: malformed body rejected before the stream opens ──────────────────────

/-- C7: a request with all headers present and a verifying signature
whose raw body does not parse as JSON is rejected with 400, the SSE
headers are never set and no frame is written. -/
theorem handler_malformed_body (keyId signature token : Option String)
    (api : Nat → ApiResponse) (exec : ExecOracle) (parseArgs : ParseOracle)
    (h1 : jsTruthy keyId = true) (h2 : jsTruthy signature = true)
    (h3 : jsTruthy token = true) :
    statusCodeOf (handleCopilotRequest keyId signature token true none
      api exec parseArgs).response = some 400
    ∧ (handleCopilotRequest keyId signature token true none
        api exec parseArgs).sseHeadersSet = false
    ∧ framesOf (handleCopilotRequest keyId signature token true none
        api exec parseArgs).response = [] := by
  simp [handleCopilotRequest, h1, h2, h3, statusCodeOf, framesOf]

/-- C7 witness: a concrete fully-authorized request with an unparseable
body yields 400 and no stream. -/
theorem handler_malformed_body_witness :
    statusCodeOf (handleCopilotRequest (some "kid") (some "sig") (some "tok") true none
      apiNoTools execStub parseStub).response = some 400
    ∧ (handleCopilotRequest (some "kid") (some "sig") (some "tok") true none
        apiNoTools execStub parseStub).sseHeadersSet = false
    ∧ framesOf (handleCopilotRequest (some "kid") (some "sig") (some "tok") true none
        apiNoTools execStub parseStub).response = [] :=
  handler_malformed_body (some "kid") (some "sig") (some "tok") apiNoTools execStub parseStub
    (by decide) (by decide) (by decide)

-- ── C8: post-open failures degrade in-band, stream always terminated ─────────

/-- The stream trace of a fully-authorized request with a parsed body:
ack, the loop frames, the in-band error notice when the loop threw, and
the terminator, with the response ended. -/
theorem handler_stream_eq (keyId signature token : Option String)
    (payload : CopilotPayload) (api : Nat → ApiResponse) (exec : ExecOracle)
    (parseArgs : ParseOracle) (h1 : jsTruthy keyId = true) (h2 : jsTruthy signature = true)
    (h3 : jsTruthy token = true) :
    handleCopilotRequest keyId signature token true (some payload) api exec parseArgs
      = { response := HandlerResponse.stream
            ([SseFrame.ack] ++ (agentLoop api exec parseArgs payload.messages).frames
              ++ (match (agentLoop api exec parseArgs payload.messages).err with
                  | some m => [SseFrame.text ("\n\n⚠️  Extension error: " ++ m)]
                  | none => []) ++ [SseFrame.done]) true
          verifyCalls := 1
          parseAttempted := true
          sseHeadersSet := true } := by
  simp [handleCopilotRequest, h1, h2, h3]

/-- C8: once the stream is open (all headers present, signature
verified, body parsed), the response is a stream that was ended, its
last frame is the terminator (whose wire form is the literal
data: [DONE] frame), and any exception escaping the agentic loop —
including a non-ok completion status — appears in the stream as an
in-band text frame carrying the extension-error notice. -/
theorem handler_stream_always_terminated (keyId signature token : Option String)
    (payload : CopilotPayload) (api : Nat → ApiResponse) (exec : ExecOracle)
    (parseArgs : ParseOracle) (h1 : jsTruthy keyId = true) (h2 : jsTruthy signature = true)
    (h3 : jsTruthy token = true) :
    ∃ frames : List SseFrame,
      (handleCopilotRequest keyId signature token true (some payload)
        api exec parseArgs).response = HandlerResponse.stream frames true
      ∧ frames.getLast? = some SseFrame.done
      ∧ sseDone = "data: [DONE]\n\n"
      ∧ (∀ m : String, (agentLoop api exec parseArgs payload.messages).err = some m →
          SseFrame.text ("\n\n⚠️  Extension error: " ++ m) ∈ frames) := by
  refine ⟨[SseFrame.ack] ++ (agentLoop api exec parseArgs payload.messages).frames
      ++ (match (agentLoop api exec parseArgs payload.messages).err with
          | some m => [SseFrame.text ("\n\n⚠️  Extension error: " ++ m)]
          | none => []) ++ [SseFrame.done], ?_, ?_, rfl, ?_⟩
  · rw [handler_stream_eq keyId signature token payload api exec parseArgs h1 h2 h3]
  · exact List.getLast?_concat _
  · intro m hm
    rw [hm]
    simp

/-- C8 witness: a concrete authorized request whose single completion
call fails with a 500 status ends the stream with the terminator and
carries the in-band extension-error notice. -/
theorem handler_stream_always_terminated_witness :
    ∃ frames : List SseFrame,
      (handleCopilotRequest (some "kid") (some "sig") (some "tok") true (some emptyPayload)
        apiFail500 execStub parseStub).response = HandlerResponse.stream frames true
      ∧ frames.getLast? = some SseFrame.done
      ∧ sseDone = "data: [DONE]\n\n"
      ∧ (∀ m : String,
          (agentLoop apiFail500 execStub parseStub emptyPayload.messages).err = some m →
          SseFrame.text ("\n\n⚠️  Extension error: " ++ m) ∈ frames) :=
  handler_stream_always_terminated (some "kid") (some "sig") (some "tok") emptyPayload
    apiFail500 execStub parseStub (by decide) (by decide) (by decide)

end Copilot
